import Mathlib

/-!
Shallow embedding of the Coffee_AI RAG orchestration core
(`core/llm_utils.py`, `core/rag.py`, `core/llm_service.py`) and proofs
about its specified behaviour.

Strings are modelled by Lean `String`; Python's substring test `a in b`
becomes `containsSub b a`; Python's `str.lower` becomes `pyLower`
(both lower-case exactly the ASCII letters on the ASCII inputs considered
here); Python dictionaries whose key sets differ between return paths are
modelled by records with `Option`-valued fields, `none` marking an absent
key; a raised exception escaping a function is modelled by `Option`/`Except`
result types.
-/

namespace CoffeeAI

/-- Python's whitespace class for `str.split()` / `str.strip()` / `\s`
(ASCII part). -/
def isPySpace (c : Char) : Bool :=
  c == ' ' || c == '\t' || c == '\n' || c == '\r' || c == '\x0b' || c == '\x0c'

/-- Python's substring test `needle in hay` (on the raw character lists). -/
def listContainsSub (hay needle : List Char) : Bool :=
  hay.tails.any (fun t => needle.isPrefixOf t)

/-- Python's substring test `needle in hay` on strings. -/
def containsSub (hay needle : String) : Bool :=
  listContainsSub hay.data needle.data

/-- Python's `str.lower()` (ASCII letters). -/
def pyLower (s : String) : String :=
  ⟨s.data.map Char.toLower⟩

/-- Helper for `pySplitWs`: split a character list on whitespace runs,
accumulating the current (reversed) word in `acc`. -/
def wsSplit (acc : List Char) : List Char → List (List Char)
  | [] => if acc.isEmpty then [] else [acc.reverse]
  | c :: cs =>
    if isPySpace c then
      if acc.isEmpty then wsSplit [] cs else acc.reverse :: wsSplit [] cs
    else wsSplit (c :: acc) cs

/-- Python's `str.split()` (no argument): split on whitespace runs,
dropping empty pieces. -/
def pySplitWs (s : String) : List String :=
  (wsSplit [] s.data).map List.asString

/-- `llm_utils.classify_intent`: the sales keyword list. -/
def sales_keywords : List String :=
  ["buy", "purchase", "price", "cost", "order", "product", "coffee", "beans",
   "available", "stock", "catalog", "shop", "store", "wholesale", "retail",
   "discount", "offer", "promo", "new", "recommendation", "suggest"]

/-- `llm_utils.classify_intent`: the refund keyword list. -/
def refund_keywords : List String :=
  ["refund", "return", "exchange", "cancel", "money back", "replacement",
   "damaged", "defective", "wrong", "mistake", "complaint", "issue"]

/-- `llm_utils.classify_intent`: the support keyword list. -/
def support_keywords : List String :=
  ["help", "support", "contact", "hours", "location", "store", "delivery",
   "shipping", "payment", "account", "login", "register"]

/-- `llm_utils.classify_intent`: lower-case the query, then test the three
keyword sets in order sales, refund, support; default `"general"`. -/
def classify_intent (query : String) : String :=
  let query_lower := pyLower query
  if sales_keywords.any (fun k => containsSub query_lower k) then "sales"
  else if refund_keywords.any (fun k => containsSub query_lower k) then "refund"
  else if support_keywords.any (fun k => containsSub query_lower k) then "support"
  else "general"

/-- `llm_utils.is_safe_query`: the banned word list. -/
def banned_words : List String :=
  ["kill", "murder", "harm", "die", "bomb", "weapon", "stab", "suicide"]

/-- `llm_utils.is_safe_query`: `False` as soon as some banned word is a
substring of the lower-cased query, else `True`. -/
def is_safe_query (query : String) : Bool :=
  !(banned_words.any (fun w => containsSub (pyLower query) w))

/-- Python's `str.strip()` on a character list (ASCII whitespace). -/
def stripChars (cs : List Char) : List Char :=
  ((cs.dropWhile isPySpace).reverse.dropWhile isPySpace).reverse

/-- Digit run to natural number (`Nat` value of a decimal digit string). -/
def digitsToNat (ds : List Char) : Nat :=
  ds.foldl (fun a c => a * 10 + (c.toNat - 48)) 0

/-- Python's `float(s)` on a string drawn from the character class `[0-9.]+`
(the only strings the extractor's price group can produce): defined (and
exact, the values being decimal) iff the string has at most one `'.'`
and at least one digit; a second dot or a dot-only string raises
`ValueError`, modelled as `none`. -/
def parsePrice? (cs : List Char) : Option ℚ :=
  if 2 ≤ cs.count '.' then none
  else if cs.all (fun c => c == '.') then none
  else
    let intPart := cs.takeWhile (fun c => c != '.')
    let frac := (cs.dropWhile (fun c => c != '.')).drop 1
    some (mkRat (digitsToNat intPart * 10 ^ frac.length + digitsToNat frac) (10 ^ frac.length))

/-- Tail of a match of `llm_utils.extract_product_info`'s pattern
`\*\*([^*]+)\*\*\s*\(ID:\s*([^)]+)\)\s*-\s*\$([0-9.]+)` after the
closing parenthesis: `\s*-\s*\$([0-9.]+)`.  Returns the three capture
groups and the remainder of the input after the match. -/
def matchAfterId (name idrun : List Char) (rest : List Char) :
    Option ((List Char × List Char × List Char) × List Char) :=
  match (rest.span isPySpace).2 with
  | '-' :: r2 =>
    match (r2.span isPySpace).2 with
    | '$' :: r4 =>
      let (price, r5) := r4.span (fun c => c.isDigit || c == '.')
      if price.isEmpty then none
      else some ((name, idrun, price), r5)
    | _ => none
  | _ => none

/-- One attempted match of the extractor's regex at the head of the input,
with Python `re` backtracking semantics.  `([^*]+)` and `([^)]+)` are
forced to maximal runs (shrinking them puts a character the following
literal cannot match at its position); the only live backtracking point
is `\s*` before `([^)]+)`: when the maximal whitespace run is followed
directly by `')'`, the engine gives the last whitespace character back to
the id group. -/
def matchProductMarker : List Char → Option ((List Char × List Char × List Char) × List Char)
  | '*' :: '*' :: rest =>
    let (name, r1) := rest.span (fun c => c != '*')
    if name.isEmpty then none else
    match r1 with
    | '*' :: '*' :: r2 =>
      match (r2.span isPySpace).2 with
      | '(' :: 'I' :: 'D' :: ':' :: r4 =>
        let (w, r5) := r4.span isPySpace
        match r5 with
        | ')' :: r6 =>
          match w.getLast? with
          | some lastW => matchAfterId name [lastW] r6
          | none => none
        | [] => none
        | _ =>
          let (idrun, r6) := r5.span (fun c => c != ')')
          match r6 with
          | ')' :: r7 => matchAfterId name idrun r7
          | _ => none
      | _ => none
    | _ => none
  | _ => none

/-- `re.findall` over the extractor's pattern: try a match at each
position left to right, continuing after the end of each match.  Every
successful match consumes at least one character, so fuel equal to the
input length never runs out before the input does. -/
def findallMarkers : Nat → List Char → List (List Char × List Char × List Char)
  | 0, _ => []
  | _, [] => []
  | fuel + 1, c :: cs =>
    match matchProductMarker (c :: cs) with
    | some (g, rest) => g :: findallMarkers fuel rest
    | none => findallMarkers fuel cs

/-- `List.mapM` specialised to `Option`, written out so that the Python
loop (which stops at the first raised exception) can be reasoned about
by plain structural induction. -/
def optionMapM (f : α → Option β) : List α → Option (List β)
  | [] => some []
  | a :: as =>
    match f a with
    | none => none
    | some b =>
      match optionMapM f as with
      | none => none
      | some bs => some (b :: bs)

/-- One product entity extracted by `llm_utils.extract_product_info`. -/
structure ExtractedProduct where
  id : String
  name : String
  price : ℚ
  buy_link : String
  image_url : String
deriving Repr, DecidableEq

/-- Loop body of `llm_utils.extract_product_info`: strip the groups,
convert the price with `float` (which may raise, hence `Option`), and
derive `buy_link` / `image_url` from the cleaned id. -/
def mkProduct? (g : List Char × List Char × List Char) : Option ExtractedProduct :=
  let clean_product_id := (stripChars g.2.1).asString
  match parsePrice? (stripChars g.2.2) with
  | none => none
  | some pr =>
    some { id := clean_product_id,
           name := (stripChars g.1).asString,
           price := pr,
           buy_link := "/product/" ++ clean_product_id,
           image_url := "/images/product_" ++ clean_product_id ++ ".jpg" }

/-- The dictionary returned by `llm_utils.extract_product_info`. -/
structure ProductInfoResult where
  products : List ExtractedProduct
  total_products : Nat
  response_type : String
  has_products : Bool
deriving Repr, DecidableEq

/-- `llm_utils.extract_product_info`: find all pattern matches, build one
entity per match in order; `none` models the `ValueError` raised by
`float` on a price group with a second dot (or no digit). -/
def extract_product_info (response : String) : Option ProductInfoResult :=
  match optionMapM mkProduct? (findallMarkers response.length response.data) with
  | none => none
  | some products =>
    some { products := products,
           total_products := products.length,
           response_type := "sales",
           has_products := decide (0 < products.length) }

/-- Python's `"\n".join(parts)`. -/
def joinParts : List String → String
  | [] => ""
  | [s] => s
  | s :: rest => s ++ "\n" ++ joinParts rest

/-- `llm_utils.format_rag_context`: build the `context_parts` list (the
retrieved-documents section when `retrieved_docs` is non-empty, then the
history section when `chat_context` is non-empty, then the product
section when `product_context` is non-empty) and join it with newlines. -/
def format_rag_context (retrieved_docs : List String)
    (chat_context product_context : String) : String :=
  let parts1 : List String :=
    if retrieved_docs.isEmpty then [] else "Retrieved Information:" :: retrieved_docs
  let parts2 : List String :=
    if chat_context == "" then [] else ["\nPrevious Conversation:", chat_context]
  let parts3 : List String :=
    if product_context == "" then [] else ["\nProduct Information:", product_context]
  joinParts (parts1 ++ parts2 ++ parts3)

/-- `llm_utils.get_chat_history_context`: acknowledged stub, always
returns the empty string. -/
def get_chat_history_context (_chat_history : List (String × String))
    (_limit : Nat := 5) : String :=
  ""

/-- `llm_utils.resolve_product_reference`: acknowledged stub, always
returns the empty string. -/
def resolve_product_reference (_query : String)
    (_chat_history : List (String × String)) : String :=
  ""

/-- `llm_utils.should_resolve_product_context`: the deictic/comparison
keyword list (`product_context_keywords`). -/
def product_context_keywords : List String :=
  ["this", "that", "it", "the one", "same", "different", "another",
   "previous", "last", "earlier", "mentioned", "discussed",
   "compare", "vs", "versus", "difference between",
   "similar", "like that", "alternative"]

/-- `llm_utils.should_resolve_product_context`: the possessive/order
reference phrase list (`reference_keywords`).  `"what I bought"` is kept
verbatim, upper-case `I` included, as in the source. -/
def reference_keywords : List String :=
  ["this product", "that coffee", "the beans", "same order",
   "my order", "my coffee", "my purchase", "what I bought"]

/-- `llm_utils.should_resolve_product_context`: three sequential branches
(sales with deictic-or-reference match, refund with reference match,
intent-independent deictic match), else `False`. -/
def should_resolve_product_context (query intent : String) : Bool :=
  let query_lower := pyLower query
  if intent == "sales" &&
      (product_context_keywords ++ reference_keywords).any
        (fun k => containsSub query_lower k) then true
  else if intent == "refund" &&
      reference_keywords.any (fun k => containsSub query_lower k) then true
  else if product_context_keywords.any (fun k => containsSub query_lower k) then true
  else false

/-- `llm_utils.should_use_chat_history`: the continuation/backreference
keyword list (`context_keywords`). -/
def context_keywords : List String :=
  ["continue", "also", "and", "what about", "how about",
   "yes", "no", "okay", "sure", "thanks", "thank you",
   "previous", "earlier", "before", "last time",
   "again", "still", "more", "else", "other"]

/-- `llm_utils.should_use_chat_history`: short query (≤ 3 tokens of
`query.split()`), else continuation keyword in the lower-cased query,
else refund intent, else `False`. -/
def should_use_chat_history (query intent : String) : Bool :=
  let query_lower := pyLower query
  if (pySplitWs query).length ≤ 3 then true
  else if context_keywords.any (fun k => containsSub query_lower k) then true
  else if intent == "refund" then true
  else false

/-- `llm_utils.get_agent_name`: fixed label per intent, default
`"Assistant"`. -/
def get_agent_name (intent : String) : String :=
  if intent == "sales" then "Sales Specialist"
  else if intent == "refund" then "Customer Service Agent"
  else if intent == "support" then "Support Agent"
  else if intent == "general" then "Coffee Assistant"
  else "Assistant"

/-- `llm_utils.get_specialized_prompt`: the shared safety preamble. -/
def base_safety : String :=
  "You are a helpful AI assistant. Never respond to questions that are violent, harmful, or illegal."

/-- `llm_utils.get_specialized_prompt`: per-intent f-string template with
`context` and `query` substituted. -/
def get_specialized_prompt (intent context query : String) : String :=
  if intent == "sales" then
    base_safety ++
    "\n\nYou are a coffee sales specialist. Your goal is to help customers find the perfect coffee products and make purchases.\n\nKey Guidelines:\n- Be enthusiastic about coffee products\n- Highlight product benefits and features\n- Suggest complementary products\n- Mention pricing and availability\n- Guide towards making a purchase\n- Ask clarifying questions about preferences\n- IMPORTANT: Always use the EXACT product_id values from the context\n- Format product information clearly for easy UI integration\n\nResponse Format:\nWhen mentioning specific products, use this format:\n**Product Name** (ID: product_id) - $price\nWhere product_id MUST be the EXACT numerical ID from the context (e.g., 1, 2, 3)\n- Product description/features\n- [Available in store/online]\n\nContext:\n" ++
    context ++ "\n\nCustomer Question: " ++ query ++ "\n\nSales Response:"
  else if intent == "refund" then
    base_safety ++
    "\n\nYou are a customer service specialist handling refunds and returns.\n\nKey Guidelines:\n- Be empathetic and understanding\n- Clearly explain refund policies\n- Provide step-by-step instructions\n- Mention timelines and requirements\n- Offer alternative solutions\n- Be professional and helpful\n\nContext:\n" ++
    context ++ "\n\nCustomer Question: " ++ query ++ "\n\nCustomer Service Response:"
  else if intent == "support" then
    base_safety ++
    "\n\nYou are a customer support specialist providing general assistance.\n\nKey Guidelines:\n- Be helpful and informative\n- Provide accurate store information\n- Explain processes clearly\n- Offer multiple contact options\n- Be patient and thorough\n- Direct to appropriate resources\n\nContext:\n" ++
    context ++ "\n\nCustomer Question: " ++ query ++ "\n\nSupport Response:"
  else
    base_safety ++
    "\n\nYou are a knowledgeable coffee store assistant providing general information.\n\nKey Guidelines:\n- Be friendly and informative\n- Provide accurate information\n- Be concise but complete\n- Offer to help further\n- Stay within your knowledge\n\nContext:\n" ++
    context ++ "\n\nQuestion: " ++ query ++ "\n\nResponse:"

/-- The `metadata` sub-dictionary attached by `format_sales_response`
for sales intent. -/
structure SalesMetadata where
  total_products : Nat
  has_products : Bool
deriving Repr, DecidableEq

/-- The dictionary built by `llm_utils.format_sales_response`
(`metadata := none` models the empty `{}` left for non-sales intents). -/
structure SalesFormatted where
  text : String
  intent : String
  agent : String
  products : List ExtractedProduct
  metadata : Option SalesMetadata
deriving Repr, DecidableEq

/-- `llm_utils.format_sales_response`: for sales intent run the extractor
(whose `float` conversion may raise, modelled as `Except.error` carrying
the `ValueError` text); otherwise keep the defaults (no products, empty
metadata). -/
def format_sales_response (response intent : String) : Except String SalesFormatted :=
  if intent == "sales" then
    match extract_product_info response with
    | none => Except.error "could not convert string to float"
    | some info =>
      Except.ok { text := response, intent := intent, agent := get_agent_name intent,
                  products := info.products,
                  metadata := some ⟨info.total_products, info.has_products⟩ }
  else
    Except.ok { text := response, intent := intent, agent := get_agent_name intent,
                products := [], metadata := none }

/-- One call to an external collaborator made by
`RAGSystem.generate_response`: the retriever (with its `k`) or the
generation backend (with the rendered prompt). -/
inductive ExtCall where
  | retrieveCall (query : String) (k : Nat)
  | llmCall (prompt : String)
deriving Repr, DecidableEq

/-- The dictionary returned by `RAGSystem.generate_response`.  The three
return paths of the source build dictionaries with different key sets;
fields of type `Option` use `none` for an absent key (for `metadata`,
the inner `Option` is `none` for the empty `{}`). -/
structure OrchestrationResult where
  response : String
  intent : String
  agent : String
  sources : List String
  context : Option String
  products : Option (List ExtractedProduct)
  metadata : Option (Option SalesMetadata)
  chat_history_used : Option Bool
  product_context_used : Option Bool
  chat_context_actual : Option Bool
  product_context_actual : Option Bool
  intelligent_decisions : Option Bool
  error : Option String
deriving Repr, DecidableEq

/-- The fixed dictionary returned on the safety short-circuit path of
`RAGSystem.generate_response`. -/
def blockedResult : OrchestrationResult :=
  { response := "I cannot provide information on harmful or dangerous topics.",
    intent := "blocked", agent := "Safety Filter", sources := [],
    context := none, products := some [], metadata := some none,
    chat_history_used := none, product_context_used := none,
    chat_context_actual := none, product_context_actual := none,
    intelligent_decisions := none, error := some "Unsafe query blocked" }

/-- The dictionary returned by the `except` handler of
`RAGSystem.generate_response` (keys `response`, `intent`, `agent`,
`sources`, `error` only). -/
def errorResult (e : String) : OrchestrationResult :=
  { response := "I apologize, but I encountered an error while processing your request.",
    intent := "error", agent := "Error Handler", sources := [],
    context := none, products := none, metadata := none,
    chat_history_used := none, product_context_used := none,
    chat_context_actual := none, product_context_actual := none,
    intelligent_decisions := none, error := some e }

/-- `RAGSystem.retrieve_relevant_documents`: ask the external retriever,
catching any failure as an empty document list. -/
def retrieve_relevant_documents
    (retrieve : String → Nat → Except String (List String))
    (query : String) (k : Nat := 5) : List String :=
  match retrieve query k with
  | Except.ok docs => docs
  | Except.error _ => []

/-- `RAGSystem.generate_response`, parameterised by the two external
collaborators (the vector retriever and the configured generation
backend, each of which may fail).  Alongside the returned dictionary it
records the trace of external calls actually performed.  Failures of the
generation call and of the extractor's `float` conversion reach the
surrounding `try`/`except` and produce `errorResult`; retriever failure
is already recovered inside `retrieve_relevant_documents`. -/
def generate_response
    (retrieve : String → Nat → Except String (List String))
    (callLLM : String → Except String String)
    (query : String)
    (chat_history : Option (List (String × String)) := none) :
    OrchestrationResult × List ExtCall :=
  if !(is_safe_query query) then
    (blockedResult, [])
  else
    let history := chat_history.getD []
    let intent := classify_intent query
    let use_chat_history := should_use_chat_history query intent
    let use_product_resolution := should_resolve_product_context query intent
    let retrieved_docs := retrieve_relevant_documents retrieve query 5
    let chat_context := if use_chat_history then get_chat_history_context history 5 else ""
    let product_context :=
      if use_product_resolution then resolve_product_reference query history else ""
    let formatted_context := format_rag_context retrieved_docs chat_context product_context
    let specialized_prompt := get_specialized_prompt intent formatted_context query
    let calls := [ExtCall.retrieveCall query 5, ExtCall.llmCall specialized_prompt]
    match callLLM specialized_prompt with
    | Except.error e => (errorResult e, calls)
    | Except.ok response =>
      match format_sales_response response intent with
      | Except.error e => (errorResult e, calls)
      | Except.ok formatted_response =>
        ({ response := formatted_response.text,
           intent := intent,
           agent := get_agent_name intent,
           sources := retrieved_docs,
           context := some formatted_context,
           products := some formatted_response.products,
           metadata := some formatted_response.metadata,
           chat_history_used := some use_chat_history,
           product_context_used := some use_product_resolution,
           chat_context_actual := some (chat_context != ""),
           product_context_actual := some (product_context != ""),
           intelligent_decisions := some true,
           error := none }, calls)

/-- `config.MAX_TOKENS`. -/
def MAX_TOKENS : Nat := 1000

/-- `config.TEMPERATURE` (`0.7`). -/
def TEMPERATURE : ℚ := mkRat 7 10

/-- The three concrete generation providers of `llm_service.LLMService`. -/
inductive Provider where
  | localP
  | openai
  | gemini
deriving Repr, DecidableEq

/-- The request a provider's backend receives for one generation call:
the prompt plus the generation parameters actually supplied (`none` when
the code passes no such parameter and the backend falls back to its own
default). -/
structure GenRequest where
  prompt : String
  max_tokens : Option Nat
  temperature : Option ℚ
deriving Repr, DecidableEq

/-- The generation request each provider's backend receives in
`llm_service.LLMService`:
`local` calls `self.llm(prompt, max_tokens=MAX_TOKENS, ..., temperature=TEMPERATURE)`;
`openai` invokes a `ChatOpenAI` constructed with `temperature=TEMPERATURE,
max_tokens=MAX_TOKENS`; `gemini` calls
`self.gemini_client.generate_content(prompt)` on a `GenerativeModel`
constructed with only `model_name`, so neither parameter is supplied. -/
def backendRequest (p : Provider) (prompt : String) : GenRequest :=
  match p with
  | Provider.localP => { prompt := prompt, max_tokens := some MAX_TOKENS,
                         temperature := some TEMPERATURE }
  | Provider.openai => { prompt := prompt, max_tokens := some MAX_TOKENS,
                         temperature := some TEMPERATURE }
  | Provider.gemini => { prompt := prompt, max_tokens := none, temperature := none }

/-- Trivial stub collaborators for concrete evaluations. -/
def stubRetrieve : String → Nat → Except String (List String) := fun _ _ => Except.ok []

/-- A generation backend stub returning a fixed completion. -/
def stubLLM (completion : String) : String → Except String String :=
  fun _ => Except.ok completion

/-- A generation backend stub that always fails (a `ProviderError`). -/
def stubFailLLM : String → Except String String :=
  fun _ => Except.error "provider failure"

/-- The specification's formula for product-context resolution,
transcribed from the spec's words for comparison with the source's
`should_resolve_product_context`: true iff some deictic/comparison
keyword occurs in the lower-cased text, or the intent is `sales` or
`refund` and some possessive/order-reference phrase occurs. -/
def spec_should_resolve_product (query intent : String) : Bool :=
  let query_lower := pyLower query
  product_context_keywords.any (fun k => containsSub query_lower k) ||
    ((intent == "sales" || intent == "refund") &&
      reference_keywords.any (fun k => containsSub query_lower k))

/-! Helper lemmas shared by the claim theorems. -/

/-- A banned-word hit forces `is_safe_query` to `false`. -/
theorem is_safe_query_eq_false_of_any
    (q : String) (h : banned_words.any (fun w => containsSub (pyLower q) w) = true) :
    is_safe_query q = false := by
  simp [is_safe_query, h]

/-- The safety short-circuit of `generate_response`: a banned-word hit
yields the blocked dictionary and an empty external-call trace. -/
theorem generate_response_blocked_of_any
    (retrieve : String → Nat → Except String (List String))
    (callLLM : String → Except String String)
    (q : String) (hist : Option (List (String × String)))
    (h : banned_words.any (fun w => containsSub (pyLower q) w) = true) :
    generate_response retrieve callLLM q hist = (blockedResult, []) := by
  have hs : is_safe_query q = false := is_safe_query_eq_false_of_any q h
  simp [generate_response, hs]

/-- `classify_intent` only produces the four classifier intents. -/
theorem classify_intent_mem (q : String) :
    classify_intent q = "sales" ∨ classify_intent q = "refund" ∨
    classify_intent q = "support" ∨ classify_intent q = "general" := by
  simp only [classify_intent]
  split
  · exact Or.inl rfl
  · split
    · exact Or.inr (Or.inl rfl)
    · split
      · exact Or.inr (Or.inr (Or.inl rfl))
      · exact Or.inr (Or.inr (Or.inr rfl))

/-- `optionMapM` preserves length on success. -/
theorem optionMapM_length {α β : Type} (f : α → Option β) :
    ∀ (l : List α) (bs : List β), optionMapM f l = some bs → bs.length = l.length := by
  intro l
  induction l with
  | nil => intro bs h; simp [optionMapM] at h; simp [← h]
  | cons a as ih =>
    intro bs h
    simp only [optionMapM] at h
    cases hfa : f a with
    | none => rw [hfa] at h; exact absurd h (by simp)
    | some b =>
      rw [hfa] at h
      cases hrest : optionMapM f as with
      | none => rw [hrest] at h; exact absurd h (by simp)
      | some bs' =>
        rw [hrest] at h
        cases h
        simp [ih bs' hrest]

/-- Every element of an `optionMapM` success image comes from applying
`f` to some element of the input list. -/
theorem optionMapM_mem {α β : Type} (f : α → Option β) :
    ∀ (l : List α) (bs : List β), optionMapM f l = some bs →
      ∀ b ∈ bs, ∃ a ∈ l, f a = some b := by
  intro l
  induction l with
  | nil =>
    intro bs h b hb
    simp [optionMapM] at h
    subst h
    simp at hb
  | cons a as ih =>
    intro bs h b hb
    simp only [optionMapM] at h
    cases hfa : f a with
    | none => rw [hfa] at h; exact absurd h (by simp)
    | some b0 =>
      rw [hfa] at h
      cases hrest : optionMapM f as with
      | none => rw [hrest] at h; exact absurd h (by simp)
      | some bs' =>
        rw [hrest] at h
        cases h
        rcases List.mem_cons.mp hb with hb0 | hbs
        · exact ⟨a, List.mem_cons_self a as, hb0 ▸ hfa⟩
        · rcases ih bs' hrest b hbs with ⟨a', ha', hfa'⟩
          exact ⟨a', List.mem_cons_of_mem a ha', hfa'⟩

/-- `optionMapM` succeeds when `f` succeeds on every element. -/
theorem optionMapM_isSome {α β : Type} (f : α → Option β) :
    ∀ (l : List α), (∀ a ∈ l, (f a).isSome) → (optionMapM f l).isSome := by
  intro l
  induction l with
  | nil => intro _; simp [optionMapM]
  | cons a as ih =>
    intro h
    have ha := h a (List.mem_cons_self a as)
    have has : (optionMapM f as).isSome := ih (fun x hx => h x (List.mem_cons_of_mem a hx))
    simp only [optionMapM]
    cases hfa : f a with
    | none => rw [hfa] at ha; exact absurd ha (by simp)
    | some b =>
      cases hrest : optionMapM f as with
      | none => rw [hrest] at has; exact absurd has (by simp)
      | some bs => simp

/-- `optionMapM` is position-preserving on success: the `i`-th output is
exactly what `f` produces on the `i`-th input. -/
theorem optionMapM_get {α β : Type} (f : α → Option β) :
    ∀ (l : List α) (bs : List β), optionMapM f l = some bs →
      ∀ (i : Nat) (hl : i < l.length) (hb : i < bs.length),
        f (l.get ⟨i, hl⟩) = some (bs.get ⟨i, hb⟩) := by
  intro l
  induction l with
  | nil =>
    intro bs h i hl hb
    simp at hl
  | cons a as ih =>
    intro bs h i hl hb
    simp only [optionMapM] at h
    cases hfa : f a with
    | none => rw [hfa] at h; exact absurd h (by simp)
    | some b =>
      rw [hfa] at h
      cases hrest : optionMapM f as with
      | none => rw [hrest] at h; exact absurd h (by simp)
      | some bs' =>
        rw [hrest] at h
        cases h
        cases i with
        | zero => simpa using hfa
        | succ n =>
          simpa using ih bs' hrest n (by simpa using hl) (by simpa using hb)

/-- A successfully built product entity carries the derived links. -/
theorem mkProduct?_links (g : List Char × List Char × List Char) (p : ExtractedProduct)
    (h : mkProduct? g = some p) :
    p.buy_link = "/product/" ++ p.id ∧
    p.image_url = "/images/product_" ++ p.id ++ ".jpg" := by
  simp only [mkProduct?] at h
  cases hp : parsePrice? (stripChars g.2.2) with
  | none => rw [hp] at h; exact absurd h (by simp)
  | some pr =>
    rw [hp] at h
    cases h
    exact ⟨rfl, rfl⟩

/-- `joinParts` over a cons with a non-empty tail. -/
theorem joinParts_cons (a : String) (l : List String) (h : l ≠ []) :
    joinParts (a :: l) = a ++ "\n" ++ joinParts l := by
  cases l with
  | nil => exact absurd rfl h
  | cons b t => rfl

/-- `joinParts` distributes over the append of two non-empty lists. -/
theorem joinParts_append (l₁ l₂ : List String) (h₁ : l₁ ≠ []) (h₂ : l₂ ≠ []) :
    joinParts (l₁ ++ l₂) = joinParts l₁ ++ "\n" ++ joinParts l₂ := by
  induction l₁ with
  | nil => exact absurd rfl h₁
  | cons a as ih =>
    cases as with
    | nil =>
      rw [List.cons_append, List.nil_append, joinParts_cons a l₂ h₂]
      rfl
    | cons b t =>
      have hne : (b :: t) ++ l₂ ≠ [] := by simp
      calc joinParts (a :: (b :: t) ++ l₂)
          = a ++ "\n" ++ joinParts ((b :: t) ++ l₂) := joinParts_cons a _ hne
        _ = a ++ "\n" ++ (joinParts (b :: t) ++ "\n" ++ joinParts l₂) := by
            rw [ih (by simp)]
        _ = joinParts (a :: b :: t) ++ "\n" ++ joinParts l₂ := by
            rw [joinParts_cons a (b :: t) (by simp)]
            simp [String.append_assoc]

/-- `classify_intent` never produces the pipeline-level intents. -/
theorem classify_intent_ne (q : String) :
    classify_intent q ≠ "blocked" ∧ classify_intent q ≠ "error" := by
  rcases classify_intent_mem q with h | h | h | h <;> rw [h] <;> exact ⟨by decide, by decide⟩

/-- Re-associate one string-append step, merging two literals. -/
theorem strMergeL (a b c : String) (hab : a ++ b = c) (x : String) :
    a ++ (b ++ x) = c ++ x := by
  rw [← String.append_assoc, hab]

/-- Case analysis on `generate_response`: each run ends in the blocked
dictionary with an empty trace, an error dictionary, or the full success
dictionary. -/
theorem generate_response_cases
    (retrieve : String → Nat → Except String (List String))
    (callLLM : String → Except String String)
    (q : String) (hist : Option (List (String × String))) :
    (is_safe_query q = false ∧
       generate_response retrieve callLLM q hist = (blockedResult, [])) ∨
    (∃ e calls, generate_response retrieve callLLM q hist = (errorResult e, calls)) ∨
    (∃ fr docs ctx calls cc pc,
       generate_response retrieve callLLM q hist =
         ({ response := SalesFormatted.text fr,
            intent := classify_intent q,
            agent := get_agent_name (classify_intent q),
            sources := docs,
            context := some ctx,
            products := some fr.products,
            metadata := some fr.metadata,
            chat_history_used := some (should_use_chat_history q (classify_intent q)),
            product_context_used := some (should_resolve_product_context q (classify_intent q)),
            chat_context_actual := some cc,
            product_context_actual := some pc,
            intelligent_decisions := some true,
            error := none }, calls)) := by
  by_cases hs : is_safe_query q = true
  · simp only [generate_response, hs, Bool.not_true, Bool.false_eq_true, if_false]
    split
    · exact Or.inr (Or.inl ⟨_, _, rfl⟩)
    · split
      · exact Or.inr (Or.inl ⟨_, _, rfl⟩)
      · exact Or.inr (Or.inr ⟨_, _, _, _, _, _, rfl⟩)
  · have hs' : is_safe_query q = false := by
      cases h : is_safe_query q
      · rfl
      · exact absurd h hs
    refine Or.inl ⟨hs', ?_⟩
    simp [generate_response, hs']

/-- C1: a query whose lower-cased text contains a banned substring makes
`generate_response` terminate immediately with intent `"blocked"`, the
fixed refusal message, empty sources and empty products, and with an
empty external-call trace (no retrieval call, no generation call),
whatever the rest of the query, the history, and the collaborators. -/
theorem claim_C1_blocked_short_circuit
    (retrieve : String → Nat → Except String (List String))
    (callLLM : String → Except String String)
    (q : String) (hist : Option (List (String × String)))
    (h : banned_words.any (fun w => containsSub (pyLower q) w) = true) :
    generate_response retrieve callLLM q hist = (blockedResult, []) ∧
    blockedResult.intent = "blocked" ∧
    blockedResult.response = "I cannot provide information on harmful or dangerous topics." ∧
    blockedResult.sources = [] ∧
    blockedResult.products = some [] :=
  ⟨generate_response_blocked_of_any retrieve callLLM q hist h, rfl, rfl, rfl, rfl⟩

/-- Witness for C1 at the concrete blocked query `"make me a weapon now"`. -/
theorem claim_C1_witness :
    banned_words.any (fun w => containsSub (pyLower "make me a weapon now") w) = true ∧
    generate_response stubRetrieve (stubLLM "ok") "make me a weapon now" none =
      (blockedResult, []) :=
  ⟨by decide,
   (claim_C1_blocked_short_circuit stubRetrieve (stubLLM "ok") "make me a weapon now" none
      (by decide)).1⟩

/-- C2: `classify_intent` tests the keyword sets in strict priority order
sales, refund, support, with default `"general"`: any sales-keyword hit
gives `"sales"` (hence a query containing both a sales and a refund
keyword is `"sales"`), a refund-keyword hit with no sales hit gives
`"refund"`, and so on. -/
theorem claim_C2_classifier_priority (q : String) :
    (sales_keywords.any (fun k => containsSub (pyLower q) k) = true →
       classify_intent q = "sales") ∧
    (sales_keywords.any (fun k => containsSub (pyLower q) k) = false →
       refund_keywords.any (fun k => containsSub (pyLower q) k) = true →
       classify_intent q = "refund") ∧
    (sales_keywords.any (fun k => containsSub (pyLower q) k) = false →
       refund_keywords.any (fun k => containsSub (pyLower q) k) = false →
       support_keywords.any (fun k => containsSub (pyLower q) k) = true →
       classify_intent q = "support") ∧
    (sales_keywords.any (fun k => containsSub (pyLower q) k) = false →
       refund_keywords.any (fun k => containsSub (pyLower q) k) = false →
       support_keywords.any (fun k => containsSub (pyLower q) k) = false →
       classify_intent q = "general") := by
  refine ⟨?_, ?_, ?_, ?_⟩ <;> intros <;> simp [classify_intent, *]

/-- Witness for C2: `"price refund"` holds both a sales and a refund
keyword and classifies as sales; `"refund me"` holds a refund keyword and
no sales keyword and classifies as refund. -/
theorem claim_C2_witness :
    classify_intent "price refund" = "sales" ∧ classify_intent "refund me" = "refund" :=
  ⟨(claim_C2_classifier_priority "price refund").1 (by decide),
   (claim_C2_classifier_priority "refund me").2.1 (by decide) (by decide)⟩

/-- C10 (implicit): the banned-term test is a plain substring check, so
`"die"` inside `"ingredient"` and `"harm"` inside `"harmless"` block the
pipeline before classification: the result is the blocked dictionary and
no external stage runs (empty call trace). -/
theorem claim_C10_fragment_blocking
    (retrieve : String → Nat → Except String (List String))
    (callLLM : String → Except String String)
    (hist : Option (List (String × String))) (q : String)
    (hq : containsSub (pyLower q) "die" = true ∨ containsSub (pyLower q) "harm" = true) :
    generate_response retrieve callLLM q hist = (blockedResult, []) ∧
    is_safe_query "Please list each ingredient" = false ∧
    is_safe_query "a harmless question" = false ∧
    (generate_response retrieve callLLM "Please list each ingredient" hist).1.intent
      = "blocked" ∧
    (generate_response retrieve callLLM "a harmless question" hist).1.intent = "blocked" := by
  have hb : banned_words.any (fun w => containsSub (pyLower q) w) = true := by
    rcases hq with h | h
    · exact List.any_eq_true.mpr ⟨"die", by decide, h⟩
    · exact List.any_eq_true.mpr ⟨"harm", by decide, h⟩
  refine ⟨generate_response_blocked_of_any retrieve callLLM q hist hb, by decide, by decide,
    ?_, ?_⟩
  · rw [generate_response_blocked_of_any retrieve callLLM "Please list each ingredient" hist
      (by decide)]
    rfl
  · rw [generate_response_blocked_of_any retrieve callLLM "a harmless question" hist
      (by decide)]
    rfl

/-- Witness for C10 at the benign-looking query `"Please list each
ingredient"` (whose lower-casing contains `"die"`). -/
theorem claim_C10_witness :
    generate_response stubRetrieve (stubLLM "ok") "Please list each ingredient" none =
      (blockedResult, []) :=
  (claim_C10_fragment_blocking stubRetrieve (stubLLM "ok") none "Please list each ingredient"
    (Or.inl (by decide))).1

/-- C3: whenever extraction returns, it yields exactly one entity per
textual marker match — the `i`-th entity is built from the `i`-th match
of the left-to-right scan, so the output is in order of first appearance
and repeated ids are not deduplicated — with `buy_link` and `image_url`
derived from the id; on `"Try **Latte** (ID: 12) - $4.50 today!"` it
yields exactly the single claimed entity, and a text mentioning id 7
twice (names `A` then `B`) yields two entities in that textual order. -/
theorem claim_C3_extraction (s : String) (r : ProductInfoResult)
    (h : extract_product_info s = some r) :
    (r.products.length = (findallMarkers s.length s.data).length ∧
     (∀ (i : Nat) (hm : i < (findallMarkers s.length s.data).length)
        (hi : i < r.products.length),
        mkProduct? ((findallMarkers s.length s.data).get ⟨i, hm⟩) =
          some (r.products.get ⟨i, hi⟩)) ∧
     ∀ p ∈ r.products,
       p.buy_link = "/product/" ++ p.id ∧
       p.image_url = "/images/product_" ++ p.id ++ ".jpg") ∧
    extract_product_info "Try **Latte** (ID: 12) - $4.50 today!" =
      some { products := [{ id := "12", name := "Latte", price := mkRat 9 2,
                            buy_link := "/product/12",
                            image_url := "/images/product_12.jpg" }],
             total_products := 1, response_type := "sales", has_products := true } ∧
    (extract_product_info "**A** (ID: 7) - $1 or **B** (ID: 7) - $2").map
        (fun r2 => r2.products.map (fun p => (p.id, p.name))) =
      some [("7", "A"), ("7", "B")] := by
  refine ⟨?_, by decide, by decide⟩
  simp only [extract_product_info] at h
  cases hm : optionMapM mkProduct? (findallMarkers s.length s.data) with
  | none => rw [hm] at h; exact absurd h (by simp)
  | some ps =>
    rw [hm] at h
    cases h
    refine ⟨optionMapM_length _ _ _ hm, fun i hmi hpi => optionMapM_get _ _ _ hm i hmi hpi,
      fun p hp => ?_⟩
    rcases optionMapM_mem _ _ _ hm p hp with ⟨g, _, hg⟩
    exact mkProduct?_links g p hg

/-- Witness for C3 at the claimed concrete round-trip input: the first
(and only) extracted entity is built from the first scan match. -/
theorem claim_C3_witness :
    mkProduct? ((findallMarkers ("Try **Latte** (ID: 12) - $4.50 today!").length
        ("Try **Latte** (ID: 12) - $4.50 today!").data).get ⟨0, by decide⟩) =
      some (([({ id := "12", name := "Latte", price := mkRat 9 2, buy_link := "/product/12",
                 image_url := "/images/product_12.jpg" } : ExtractedProduct)]).get
        ⟨0, by decide⟩) :=
  (claim_C3_extraction "Try **Latte** (ID: 12) - $4.50 today!"
    { products := [{ id := "12", name := "Latte", price := mkRat 9 2,
                     buy_link := "/product/12",
                     image_url := "/images/product_12.jpg" }],
      total_products := 1, response_type := "sales", has_products := true }
    (by decide)).1.2.1 0 (by decide) (by decide)

/-- C4 counterexample: `"**A** (ID: 1) - $1.2.3"` matches the marker
pattern with price group `"1.2.3"`, `float` raises, the raise escapes
`extract_product_info` (modelled as `none`), and on a sales query the
pipeline surfaces an error result — not zero extracted entities. -/
theorem claim_C4_counterexample :
    extract_product_info "**A** (ID: 1) - $1.2.3" = none ∧
    ((generate_response stubRetrieve (stubLLM "**A** (ID: 1) - $1.2.3") "buy" none).1).intent
      = "error" :=
  ⟨by decide, by decide⟩

/-- C4 amended: extraction returns normally on every input whose matched
price groups all convert (at most one dot, at least one digit); an input
with no marker match yields the zero-entity result; but a matched price
group rejected by `float` makes the `ValueError` escape extraction. -/
theorem claim_C4_amended (s : String)
    (h : ∀ g ∈ findallMarkers s.length s.data, (mkProduct? g).isSome) :
    (extract_product_info s).isSome ∧
    (findallMarkers s.length s.data = [] →
       extract_product_info s =
         some { products := [], total_products := 0, response_type := "sales",
                has_products := false }) := by
  constructor
  · have hsome := optionMapM_isSome mkProduct? _ h
    simp only [extract_product_info]
    cases hm : optionMapM mkProduct? (findallMarkers s.length s.data) with
    | none => rw [hm] at hsome; exact absurd hsome (by simp)
    | some ps => simp
  · intro hnil
    simp [extract_product_info, hnil, optionMapM]

/-- Witness for C4's amended claim at a well-formed marker input. -/
theorem claim_C4_witness :
    (extract_product_info "see **Mocha** (ID: 3) - $5.25 and more").isSome :=
  (claim_C4_amended "see **Mocha** (ID: 3) - $5.25 and more" (by decide)).1

/-- C5: `format_rag_context` emits the sections in fixed order retrieved,
history, product, each under its fixed header and joined by newlines,
omitting empty sections: with all three present the output is the full
three-section string, with only retrieved passages it is exactly the
`Retrieved Information:` section, and with nothing it is empty. -/
theorem claim_C5_context_assembly :
    (∀ (docs : List String) (h p : String), docs ≠ [] → h ≠ "" → p ≠ "" →
       format_rag_context docs h p =
         "Retrieved Information:\n" ++ joinParts docs ++
           "\n\nPrevious Conversation:\n" ++ h ++ "\n\nProduct Information:\n" ++ p) ∧
    (∀ docs : List String, docs ≠ [] →
       format_rag_context docs "" "" = "Retrieved Information:\n" ++ joinParts docs) ∧
    format_rag_context [] "" "" = "" := by
  refine ⟨?_, ?_, by decide⟩
  · intro docs h p hdocs hh hp
    have e1 : docs.isEmpty = false := by
      cases docs with
      | nil => exact absurd rfl hdocs
      | cons a t => rfl
    have e2 : (h == "") = false := by
      cases hb : h == "" with
      | false => rfl
      | true => exact absurd (eq_of_beq hb) hh
    have e3 : (p == "") = false := by
      cases pb : p == "" with
      | false => rfl
      | true => exact absurd (eq_of_beq pb) hp
    simp only [format_rag_context, e1, e2, e3, Bool.false_eq_true, if_false]
    rw [List.append_assoc]
    simp only [List.cons_append, List.nil_append]
    rw [joinParts_cons "Retrieved Information:"
        (docs ++ ["\nPrevious Conversation:", h, "\nProduct Information:", p]) (by simp)]
    rw [joinParts_append docs ["\nPrevious Conversation:", h, "\nProduct Information:", p]
        hdocs (by simp)]
    simp only [joinParts]
    simp only [String.append_assoc]
    rw [strMergeL "Retrieved Information:" "\n" "Retrieved Information:\n" (by decide),
      strMergeL "\nPrevious Conversation:" "\n" "\nPrevious Conversation:\n" (by decide),
      strMergeL "\n" "\nPrevious Conversation:\n" "\n\nPrevious Conversation:\n" (by decide),
      strMergeL "\nProduct Information:" "\n" "\nProduct Information:\n" (by decide),
      strMergeL "\n" "\nProduct Information:\n" "\n\nProduct Information:\n" (by decide)]
  · intro docs hdocs
    have e1 : docs.isEmpty = false := by
      cases docs with
      | nil => exact absurd rfl hdocs
      | cons a t => rfl
    simp only [format_rag_context, e1, Bool.false_eq_true, if_false, beq_self_eq_true,
      if_true, List.append_nil]
    rw [joinParts_cons "Retrieved Information:" docs hdocs]
    simp only [String.append_assoc]
    rw [strMergeL "Retrieved Information:" "\n" "Retrieved Information:\n" (by decide)]

/-- Witness for C5 at concrete one-passage inputs. -/
theorem claim_C5_witness :
    format_rag_context ["doc1"] "hist" "prod" =
      "Retrieved Information:\n" ++ joinParts ["doc1"] ++
        "\n\nPrevious Conversation:\n" ++ "hist" ++ "\n\nProduct Information:\n" ++ "prod" ∧
    format_rag_context ["doc1"] "" "" = "Retrieved Information:\n" ++ joinParts ["doc1"] :=
  ⟨claim_C5_context_assembly.1 ["doc1"] "hist" "prod" (by decide) (by decide) (by decide),
   claim_C5_context_assembly.2.1 ["doc1"] (by decide)⟩

/-- C6: the three sequential branches of `should_resolve_product_context`
are logically equivalent to the spec's single formula, for every query
and every intent. -/
theorem claim_C6_resolve_equiv (query intent : String) :
    should_resolve_product_context query intent = spec_should_resolve_product query intent := by
  simp only [should_resolve_product_context, spec_should_resolve_product, List.any_append]
  cases hP : product_context_keywords.any (fun k => containsSub (pyLower query) k) <;>
    cases hR : reference_keywords.any (fun k => containsSub (pyLower query) k) <;>
      cases hs : intent == "sales" <;>
        cases hr : intent == "refund" <;>
          simp [hP, hR, hs, hr]

/-- Witness for C6 at a concrete deictic sales query. -/
theorem claim_C6_witness :
    should_resolve_product_context "is this one available" "sales" =
      spec_should_resolve_product "is this one available" "sales" :=
  claim_C6_resolve_equiv "is this one available" "sales"

/-- C7 counterexample: the gemini backend call carries neither the shared
maximum output length nor the shared sampling temperature (the
`GenerativeModel` is built from the model name alone and
`generate_content` receives only the prompt). -/
theorem claim_C7_counterexample :
    (backendRequest Provider.gemini "prompt").max_tokens = none ∧
    (backendRequest Provider.gemini "prompt").temperature = none :=
  ⟨rfl, rfl⟩

/-- C7 amended: the local and openai generation calls receive both
process-wide parameters (`MAX_TOKENS`, `TEMPERATURE`); the gemini call
receives neither. -/
theorem claim_C7_amended (prompt : String) :
    backendRequest Provider.localP prompt =
      { prompt := prompt, max_tokens := some MAX_TOKENS, temperature := some TEMPERATURE } ∧
    backendRequest Provider.openai prompt =
      { prompt := prompt, max_tokens := some MAX_TOKENS, temperature := some TEMPERATURE } ∧
    backendRequest Provider.gemini prompt =
      { prompt := prompt, max_tokens := none, temperature := none } :=
  ⟨rfl, rfl, rfl⟩

/-- Witness for C7's amended claim at a concrete prompt. -/
theorem claim_C7_witness :
    backendRequest Provider.localP "p" =
      { prompt := "p", max_tokens := some MAX_TOKENS, temperature := some TEMPERATURE } :=
  (claim_C7_amended "p").1

/-- C8 counterexample: `"weapon"` has one token (≤ 3), yet its
orchestration result is the blocked dictionary, which carries no
`chat_history_used` key at all — the claim's universal orchestration
half fails on it. -/
theorem claim_C8_counterexample :
    (pySplitWs "weapon").length ≤ 3 ∧
    ((generate_response stubRetrieve (stubLLM "ok") "weapon" none).1).chat_history_used
      = none :=
  ⟨by decide, by decide⟩

/-- C8 amended: a query of at most 3 whitespace-delimited tokens makes
`should_use_chat_history` true for every intent; and whenever the
pipeline completes its success path (the returned dictionary has no
error field), the result reports `chat_history_used = true` for such a
query.  (Blocked and error results carry no decision flag.) -/
theorem claim_C8_amended (q intent : String) (h3 : (pySplitWs q).length ≤ 3) :
    should_use_chat_history q intent = true ∧
    ∀ (retrieve : String → Nat → Except String (List String))
      (callLLM : String → Except String String)
      (hist : Option (List (String × String))) (r : OrchestrationResult)
      (calls : List ExtCall),
      generate_response retrieve callLLM q hist = (r, calls) →
      r.error = none → r.chat_history_used = some true := by
  have huse : ∀ i, should_use_chat_history q i = true := by
    intro i
    simp [should_use_chat_history, h3]
  refine ⟨huse intent, ?_⟩
  intro retrieve callLLM hist r calls heq herr
  rcases generate_response_cases retrieve callLLM q hist with
    ⟨_, hb⟩ | ⟨e, cs, hb⟩ | ⟨fr, docs, ctx, cs, cc, pc, hb⟩
  · injection heq.symm.trans hb with hr hc
    rw [hr] at herr
    exact absurd herr (by simp [blockedResult])
  · injection heq.symm.trans hb with hr hc
    rw [hr] at herr
    exact absurd herr (by simp [errorResult])
  · injection heq.symm.trans hb with hr hc
    rw [hr]
    simp [huse (classify_intent q)]

/-- Witness for C8's amended claim at the one-token safe query `"yes"`. -/
theorem claim_C8_witness :
    should_use_chat_history "yes" "general" = true ∧
    ((generate_response stubRetrieve (stubLLM "fine") "yes" none).1).chat_history_used
      = some true :=
  ⟨(claim_C8_amended "yes" "general" (by decide)).1,
   (claim_C8_amended "yes" "general" (by decide)).2 stubRetrieve (stubLLM "fine") none
     (generate_response stubRetrieve (stubLLM "fine") "yes" none).1
     (generate_response stubRetrieve (stubLLM "fine") "yes" none).2 rfl (by decide)⟩

/-- C9 counterexample: the blocked result for `"weapon"` carries no
decision flags, and the error result for a failing generator carries
neither decision flags nor a products list — the declared full shape is
not present on every path. -/
theorem claim_C9_counterexample :
    ((generate_response stubRetrieve (stubLLM "ok") "weapon" none).1).product_context_used
      = none ∧
    ((generate_response stubRetrieve stubFailLLM "hello there everyone today" none).1).products
      = none ∧
    ((generate_response stubRetrieve stubFailLLM "hello there everyone today" none).1).chat_history_used
      = none :=
  ⟨by decide, by decide, by decide⟩

/-- C9 amended: only the success path carries the full declared shape
(products, context, metadata and both decision flags present, no error
field); the blocked dictionary keeps empty sources/products and an error
note but omits the decision flags; the error dictionary omits both the
decision flags and the products list while carrying the error field. -/
theorem claim_C9_amended
    (retrieve : String → Nat → Except String (List String))
    (callLLM : String → Except String String)
    (q : String) (hist : Option (List (String × String)))
    (r : OrchestrationResult) (calls : List ExtCall)
    (heq : generate_response retrieve callLLM q hist = (r, calls)) :
    (r.error = none →
       r.products.isSome ∧ r.context.isSome ∧ r.metadata.isSome ∧
       r.chat_history_used = some (should_use_chat_history q (classify_intent q)) ∧
       r.product_context_used = some (should_resolve_product_context q (classify_intent q))) ∧
    (r.intent = "blocked" →
       r.products = some [] ∧ r.sources = [] ∧
       r.chat_history_used = none ∧ r.product_context_used = none ∧
       r.error = some "Unsafe query blocked") ∧
    (r.intent = "error" →
       r.products = none ∧ r.chat_history_used = none ∧
       r.product_context_used = none ∧ r.error.isSome) := by
  rcases generate_response_cases retrieve callLLM q hist with
    ⟨_, hb⟩ | ⟨e, cs, hb⟩ | ⟨fr, docs, ctx, cs, cc, pc, hb⟩
  · injection heq.symm.trans hb with hr hc
    subst hr
    exact ⟨fun he => absurd he (by decide), fun _ => by decide, fun hi => absurd hi (by decide)⟩
  · injection heq.symm.trans hb with hr hc
    subst hr
    refine ⟨fun he => absurd he (by simp [errorResult]), fun hi => absurd hi (by simp [errorResult]),
      fun _ => ⟨rfl, rfl, rfl, by simp [errorResult]⟩⟩
  · injection heq.symm.trans hb with hr hc
    subst hr
    refine ⟨fun _ => ⟨by simp, by simp, by simp, rfl, rfl⟩,
      fun hi => absurd hi (classify_intent_ne q).1,
      fun hi => absurd hi (classify_intent_ne q).2⟩

/-- Witness for C9's amended claim on a concrete successful run. -/
theorem claim_C9_witness :
    ((generate_response stubRetrieve (stubLLM "ok") "tell me a story" none).1).products.isSome :=
  ((claim_C9_amended stubRetrieve (stubLLM "ok") "tell me a story" none
      (generate_response stubRetrieve (stubLLM "ok") "tell me a story" none).1
      (generate_response stubRetrieve (stubLLM "ok") "tell me a story" none).2
      rfl).1 (by decide)).1

end CoffeeAI
